import Mathlib

/-!
Shallow embedding of the nightlightdns CoreDNS plugin (Go) and proofs about it.

The plugin's code consists of `ServeDNS` and `dnserror` (main file) and `setup`
(setup.go).  External collaborators (the dns library's message constructors,
`plugin.NextOrFailure`, `net.ParseIP`, `ioutil.ReadFile` + `json.Unmarshal`,
the prometheus counter and the caddy controller) are modelled as small
definitions or as parameters, following their documented behaviour; all
decision-making code is translated from the repository's source.
-/

namespace Nightlight

/-- dns.TypeA -/
def TypeA : Nat := 1

/-- dns.TypeAAAA -/
def TypeAAAA : Nat := 28

/-- dns.ClassINET -/
def ClassINET : Nat := 1

/-- dns.RcodeSuccess -/
def RcodeSuccess : Nat := 0

/-- dns.RcodeServerFailure -/
def RcodeServerFailure : Nat := 2

/-- net.IP, a byte slice. -/
abbrev IP := List Nat

/-- Go error values are modelled by their message; nil is `none`. -/
abbrev GoError := String

/-- The context is only ever passed through and fed to metrics.WithServer,
so it is modelled as the server-label token that WithServer extracts. -/
abbrev Ctx := String

/-- A dns.ResponseWriter is only ever used as a handle to write one message
into, so it is modelled as an opaque token. -/
abbrev Writer := Nat

/-- One entry of the external table (struct DNSRecord in the source). -/
structure DNSRecord where
  Name : String
  Ipaddress : String
deriving Repr, DecidableEq

/-- The parsed table file (struct DNSRecords in the source). -/
structure DNSRecords where
  Records : List DNSRecord
deriving Repr, DecidableEq

/-- The incoming query message: the parts of dns.Msg that ServeDNS reads
(question name, question type, transaction Id). -/
structure Msg where
  qname : String
  qtype : Nat
  id : Nat
deriving Repr, DecidableEq

/-- dns.RR_Header with the fields ServeDNS assigns. -/
structure RR_Header where
  Name : String
  Rrtype : Nat
  Class : Nat
  Ttl : Nat
deriving Repr, DecidableEq

/-- dns.A: an address answer record; the A field is the net.ParseIP result,
which is nil (`none`) when parsing fails. -/
structure A_RR where
  Hdr : RR_Header
  A : Option IP
deriving Repr, DecidableEq

/-- The outgoing reply message: the parts of dns.Msg the plugin sets. -/
structure Reply where
  id : Nat
  rcode : Nat
  authoritative : Bool
  answer : List A_RR
deriving Repr, DecidableEq

/-- dns.Msg.SetReply: a fresh reply linked to the query's transaction Id,
with rcode RcodeSuccess and everything else at its zero value. -/
def Msg.SetReply (r : Msg) : Reply :=
  { id := r.id, rcode := RcodeSuccess, authoritative := false, answer := [] }

/-- dns.Msg.SetRcode: SetReply followed by setting the given rcode. -/
def Msg.SetRcode (r : Msg) (rcode : Nat) : Reply :=
  { id := r.id, rcode := rcode, authoritative := false, answer := [] }

/-- The observable side effects of one ServeDNS run, in program order:
invoking the next handler in the chain, incrementing the request counter
with a server label, and writing a reply message to the transport. -/
inductive Event where
  | callNext (ctx : Ctx) (w : Writer) (r : Msg)
  | incCounter (label : String)
  | writeMsg (w : Writer) (m : Reply)
deriving Repr, DecidableEq

/-- True exactly for writeMsg events. -/
def Event.isWrite : Event → Bool
  | .writeMsg _ _ => true
  | _ => false

/-- True exactly for callNext events. -/
def Event.isCallNext : Event → Bool
  | .callNext _ _ _ => true
  | _ => false

/-- True exactly for incCounter events. -/
def Event.isInc : Event → Bool
  | .incCounter _ => true
  | _ => false

/-- What one run of a handler produces: its effect trace and the
(result code, error) pair it returns. -/
structure DNSOutcome where
  trace : List Event
  rcode : Nat
  err : Option GoError
deriving Repr, DecidableEq

/-- A downstream plugin.Handler, modelled by the (rcode, error) pair its
ServeDNS returns for given (ctx, writer, message) arguments. -/
abbrev Handler := Ctx → Writer → Msg → Nat × Option GoError

/-- plugin.NextOrFailure: call the next handler when one is configured,
otherwise report "no next plugin found" with a server-failure rcode. -/
def NextOrFailure (name : String) (next : Option Handler) (ctx : Ctx)
    (w : Writer) (r : Msg) : DNSOutcome :=
  match next with
  | some h =>
    { trace := [.callNext ctx w r], rcode := (h ctx w r).1, err := (h ctx w r).2 }
  | none =>
    { trace := [], rcode := RcodeServerFailure,
      err := some ("plugin/" ++ name ++ ": no next plugin found") }

/-- Go statement sequencing at a return point: running s1 and then s2
yields s1's returned value when s1 returns, and s2's otherwise.  An
unconditional return is `some`, so anything sequenced after it is dead. -/
def goSeq (s1 : Option DNSOutcome) (s2 : DNSOutcome) : DNSOutcome :=
  s1.getD s2

/-- dnserror (source lines 130-139): build a reply with the given rcode via
SetRcode, mark it authoritative, write it, and return RcodeSuccess with the
given error.  The request.Request state is its (writer, query) pair. -/
def dnserror (rcode : Nat) (w : Writer) (req : Msg) (err : Option GoError) :
    DNSOutcome :=
  { trace := [.writeMsg w { req.SetRcode rcode with authoritative := true }],
    rcode := RcodeSuccess, err := err }

/-- Combined result of ioutil.ReadFile "dns.json" and json.Unmarshal:
the read can fail, the unmarshal can fail, or a DNSRecords value parses. -/
inductive TableFile where
  | readError
  | parseError
  | parsed (data : DNSRecords)
deriving Repr, DecidableEq

/-- Source lines 67-71: both the ReadFile error and the Unmarshal error are
discarded, so on either failure `data` keeps its zero value (no records). -/
def loadRecords : TableFile → DNSRecords
  | .readError => { Records := [] }
  | .parseError => { Records := [] }
  | .parsed data => data

/-- strings.Split s "." on the character list of s: splits around every
dot; always yields one more segment than there are dots, so never `[]`. -/
def goSplitDot : List Char → List (List Char)
  | [] => [[]]
  | c :: cs =>
    match goSplitDot cs with
    | [] => [[c]]
    | s :: ss => if c = '.' then [] :: s :: ss else (c :: s) :: ss

/-- baseName[0] in the matcher loop: the first segment of
strings.Split(qname, "."). -/
def baseName (qname : String) : String :=
  match goSplitDot qname.toList with
  | [] => ""
  | s :: _ => String.mk s

/-- Source lines 73-81: scan the records in order; every record whose Name
equals the query's leftmost label overwrites the running outip, which
starts as the empty string. -/
def matchLoop (qname : String) (records : List DNSRecord) : String :=
  records.foldl
    (fun outip record =>
      if record.Name = baseName qname then record.Ipaddress else outip)
    ""

/-- metrics.WithServer: extracts the server label from the context. -/
def metricsWithServer (ctx : Ctx) : String := ctx

/-- The plugin value: holds the next handler of the chain (nil when none). -/
structure Nightlightdns where
  Next : Option Handler

/-- Name() of the plugin. -/
def Nightlightdns.name : String := "nightlightdns"

/-- ServeDNS (source lines 41-108), translated statement by statement.
`parseIP` stands for net.ParseIP and `table` for the per-request result of
reading and unmarshalling dns.json; both are external inputs of the run.
Non-address query types take the classifier branch: an unconditional
delegate return sequenced (goSeq) before the dead dnserror return.
Address query types load the table, run the matcher loop, build the single
type-A answer, increment the counter, then build and write the reply and
return RcodeSuccess with a nil error. -/
def Nightlightdns.ServeDNS (parseIP : String → Option IP) (table : TableFile)
    (n : Nightlightdns) (ctx : Ctx) (w : Writer) (r : Msg) : DNSOutcome :=
  let qname := r.qname
  if r.qtype ≠ TypeA ∧ r.qtype ≠ TypeAAAA then
    goSeq (some (NextOrFailure Nightlightdns.name n.Next ctx w r))
      (dnserror RcodeServerFailure w r none)
  else
    let data := loadRecords table
    let outip := matchLoop qname data.Records
    let answers : List A_RR :=
      [{ Hdr := { Name := qname, Rrtype := TypeA, Class := ClassINET, Ttl := 30 },
         A := parseIP outip }]
    let m : Reply := { r.SetReply with authoritative := true, answer := answers }
    { trace := [.incCounter (metricsWithServer ctx), .writeMsg w m],
      rcode := RcodeSuccess, err := none }

/-- Result of the setup function: either the plugin got registered with the
chain (nil error) or a configuration error was returned. -/
inductive SetupResult where
  | registered
  | error (e : String)
deriving Repr, DecidableEq

/-- caddy Controller.ArgErr message for unexpected arguments. -/
def ArgErr : String := "Wrong argument count or unexpected line ending"

/-- plugin.Error: wraps an error message with the plugin name. -/
def pluginError (name : String) (e : String) : String :=
  "plugin/" ++ name ++ ": " ++ e

/-- setup (setup.go lines 14-30): skip the directive token; if another
token follows, return plugin.Error(name, ArgErr), else AddPlugin and
return nil.  The controller is modelled by the list of tokens that follow
the directive name. -/
def setup (args : List String) : SetupResult :=
  match args with
  | [] => .registered
  | _ :: _ => .error (pluginError Nightlightdns.name ArgErr)

/-- The reply messages written to the transport during one run, in order. -/
def writtenReplies (o : DNSOutcome) : List Reply :=
  o.trace.filterMap (fun e =>
    match e with
    | .writeMsg _ m => some m
    | _ => none)

end Nightlight

namespace Nightlight

/-- goSplitDot always returns at least one segment: splitting on dots
yields one more segment than there are dots. -/
theorem goSplitDot_ne_nil (cs : List Char) : goSplitDot cs ≠ [] := by
  cases cs with
  | nil => simp [goSplitDot]
  | cons c cs =>
    simp only [goSplitDot]
    cases hg : goSplitDot cs with
    | nil => simp
    | cons s ss => by_cases h : c = '.' <;> simp [h]

/-- The matcher fold, started from any initial value, computes the address
of the last matching record, or the initial value when none matches. -/
theorem matchFold_getLastD (qname : String) (records : List DNSRecord)
    (init : String) :
    records.foldl
        (fun outip record =>
          if record.Name = baseName qname then record.Ipaddress else outip)
        init
      = ((records.filter (fun record => record.Name == baseName qname)).map
          DNSRecord.Ipaddress).getLastD init := by
  induction records generalizing init with
  | nil => rfl
  | cons rec recs ih =>
    rw [List.foldl_cons, List.filter_cons]
    by_cases h : rec.Name = baseName qname
    · rw [if_pos h, if_pos (by simp [h]), List.map_cons, List.getLastD_cons, ih]
    · rw [if_neg h, if_neg (by simp [h]), ih]

/-- On a non-address query type, ServeDNS is exactly the delegate return. -/
theorem serveDNS_nonaddr (parseIP : String → Option IP) (table : TableFile)
    (n : Nightlightdns) (ctx : Ctx) (w : Writer) (r : Msg)
    (h1 : r.qtype ≠ TypeA) (h2 : r.qtype ≠ TypeAAAA) :
    Nightlightdns.ServeDNS parseIP table n ctx w r
      = NextOrFailure Nightlightdns.name n.Next ctx w r := by
  unfold Nightlightdns.ServeDNS
  rw [if_pos ⟨h1, h2⟩]
  rfl

/-- On an address query type, ServeDNS is exactly the local-answer outcome:
increment the counter, then write the authoritative reply built from the
matcher's result, and return RcodeSuccess with no error. -/
theorem serveDNS_addr (parseIP : String → Option IP) (table : TableFile)
    (n : Nightlightdns) (ctx : Ctx) (w : Writer) (r : Msg)
    (h : r.qtype = TypeA ∨ r.qtype = TypeAAAA) :
    Nightlightdns.ServeDNS parseIP table n ctx w r
      = { trace := [.incCounter (metricsWithServer ctx),
                    .writeMsg w
                      { id := r.id, rcode := RcodeSuccess, authoritative := true,
                        answer := [{ Hdr := { Name := r.qname, Rrtype := TypeA,
                                              Class := ClassINET, Ttl := 30 },
                                     A := parseIP (matchLoop r.qname
                                            (loadRecords table).Records) }] }],
          rcode := RcodeSuccess, err := none } := by
  have hc : ¬(r.qtype ≠ TypeA ∧ r.qtype ≠ TypeAAAA) :=
    fun hcon => h.elim hcon.1 hcon.2
  unfold Nightlightdns.ServeDNS
  rw [if_neg hc]
  rfl

end Nightlight

namespace Nightlight

/-- matchLoop computes the address of the last record whose Name equals
the query's leftmost label, or the empty string when none matches. -/
theorem matchLoop_eq (qname : String) (records : List DNSRecord) :
    matchLoop qname records
      = ((records.filter (fun record => record.Name == baseName qname)).map
          DNSRecord.Ipaddress).getLastD "" :=
  matchFold_getLastD qname records ""

/-- The trace of any run is either counter-then-write (address path),
a single call of the next handler, or empty (no next handler). -/
theorem serveDNS_trace_shape (parseIP : String → Option IP)
    (table : TableFile) (n : Nightlightdns) (ctx : Ctx) (w : Writer) (r : Msg) :
    (∃ m, (Nightlightdns.ServeDNS parseIP table n ctx w r).trace
        = [.incCounter (metricsWithServer ctx), .writeMsg w m]) ∨
    (Nightlightdns.ServeDNS parseIP table n ctx w r).trace = [.callNext ctx w r] ∨
    (Nightlightdns.ServeDNS parseIP table n ctx w r).trace = [] := by
  by_cases hA : r.qtype = TypeA
  · exact Or.inl ⟨_, by rw [serveDNS_addr parseIP table n ctx w r (Or.inl hA)]⟩
  · by_cases hB : r.qtype = TypeAAAA
    · exact Or.inl ⟨_, by rw [serveDNS_addr parseIP table n ctx w r (Or.inr hB)]⟩
    · rw [serveDNS_nonaddr parseIP table n ctx w r hA hB]
      cases hn : n.Next with
      | some hh => exact Or.inr (Or.inl (by simp [NextOrFailure]))
      | none => exact Or.inr (Or.inr (by simp [NextOrFailure]))

/-- C1: on every address-type query and for every record table, the
selected address is that of the last record in stored order whose Name
equals the query name's leftmost dot-separated label (empty string when no
record matches), and the written reply carries exactly that selection. -/
theorem matcher_scans_last_match_wins (parseIP : String → Option IP)
    (table : TableFile) (n : Nightlightdns) (ctx : Ctx) (w : Writer) (r : Msg)
    (h : r.qtype = TypeA ∨ r.qtype = TypeAAAA) :
    matchLoop r.qname (loadRecords table).Records
      = (((loadRecords table).Records.filter
            (fun record => record.Name == baseName r.qname)).map
          DNSRecord.Ipaddress).getLastD ""
    ∧ Nightlightdns.ServeDNS parseIP table n ctx w r
      = { trace := [.incCounter (metricsWithServer ctx),
                    .writeMsg w
                      { id := r.id, rcode := RcodeSuccess, authoritative := true,
                        answer := [{ Hdr := { Name := r.qname, Rrtype := TypeA,
                                              Class := ClassINET, Ttl := 30 },
                                     A := parseIP ((((loadRecords table).Records.filter
                                              (fun record => record.Name == baseName r.qname)).map
                                            DNSRecord.Ipaddress).getLastD "") }] }],
          rcode := RcodeSuccess, err := none } := by
  refine ⟨matchLoop_eq r.qname (loadRecords table).Records, ?_⟩
  rw [serveDNS_addr parseIP table n ctx w r h,
    matchLoop_eq r.qname (loadRecords table).Records]

/-- Witness for C1 at a concrete table with two records sharing the key
"host": the later record's address 3.3.3.3 is selected, not 1.1.1.1. -/
theorem matcher_scans_last_match_wins_witness :
    ((1 : Nat) = TypeA ∨ (1 : Nat) = TypeAAAA) ∧
    matchLoop "host.example.com."
        [⟨"host", "1.1.1.1"⟩, ⟨"other", "2.2.2.2"⟩, ⟨"host", "3.3.3.3"⟩]
      = "3.3.3.3" ∧
    Nightlightdns.ServeDNS
        (fun s => if s = "3.3.3.3" then some [3, 3, 3, 3] else none)
        (.parsed ⟨[⟨"host", "1.1.1.1"⟩, ⟨"other", "2.2.2.2"⟩, ⟨"host", "3.3.3.3"⟩]⟩)
        ⟨none⟩ "srv" 0 ⟨"host.example.com.", 1, 5⟩
      = { trace := [.incCounter "srv",
                    .writeMsg 0
                      { id := 5, rcode := RcodeSuccess, authoritative := true,
                        answer := [{ Hdr := { Name := "host.example.com.", Rrtype := TypeA,
                                              Class := ClassINET, Ttl := 30 },
                                     A := some [3, 3, 3, 3] }] }],
          rcode := RcodeSuccess, err := none } :=
  ⟨Or.inl rfl,
   (matcher_scans_last_match_wins
      (fun s => if s = "3.3.3.3" then some [3, 3, 3, 3] else none)
      (.parsed ⟨[⟨"host", "1.1.1.1"⟩, ⟨"other", "2.2.2.2"⟩, ⟨"host", "3.3.3.3"⟩]⟩)
      ⟨none⟩ "srv" 0 ⟨"host.example.com.", 1, 5⟩ (Or.inl rfl)).1.trans rfl,
   (matcher_scans_last_match_wins
      (fun s => if s = "3.3.3.3" then some [3, 3, 3, 3] else none)
      (.parsed ⟨[⟨"host", "1.1.1.1"⟩, ⟨"other", "2.2.2.2"⟩, ⟨"host", "3.3.3.3"⟩]⟩)
      ⟨none⟩ "srv" 0 ⟨"host.example.com.", 1, 5⟩ (Or.inl rfl)).2.trans rfl⟩

end Nightlight

namespace Nightlight

/-- C2: for every query whose type is neither TypeA nor TypeAAAA, ServeDNS
writes no local reply; its only effect is invoking the next handler with
the identical context, writer and query message, and it returns exactly
the result code and error that handler produced. -/
theorem serveDNS_delegates_non_address (parseIP : String → Option IP)
    (table : TableFile) (n : Nightlightdns) (ctx : Ctx) (w : Writer) (r : Msg)
    (next : Handler)
    (h1 : r.qtype ≠ TypeA) (h2 : r.qtype ≠ TypeAAAA) (hn : n.Next = some next) :
    Nightlightdns.ServeDNS parseIP table n ctx w r
      = { trace := [.callNext ctx w r],
          rcode := (next ctx w r).1, err := (next ctx w r).2 } := by
  rw [serveDNS_nonaddr parseIP table n ctx w r h1 h2, hn]
  rfl

/-- Witness for C2 at a concrete TXT (type 16) query: the downstream
handler's pair (3, "boom") is returned unchanged. -/
theorem serveDNS_delegates_non_address_witness :
    ((16 : Nat) ≠ TypeA ∧ (16 : Nat) ≠ TypeAAAA) ∧
    Nightlightdns.ServeDNS (fun _ => none) .readError
        ⟨some (fun _ _ _ => (3, some "boom"))⟩ "srv" 0 ⟨"a.b.", 16, 7⟩
      = { trace := [.callNext "srv" 0 ⟨"a.b.", 16, 7⟩],
          rcode := 3, err := some "boom" } :=
  ⟨⟨by decide, by decide⟩,
   serveDNS_delegates_non_address (fun _ => none) .readError
     ⟨some (fun _ _ _ => (3, some "boom"))⟩ "srv" 0 ⟨"a.b.", 16, 7⟩
     (fun _ _ _ => (3, some "boom")) (by decide) (by decide) rfl⟩

/-- C3: on every address-type query the written reply's single answer has
the original query name, the Internet class, TTL 30, and as address the
net.ParseIP parse of the matcher's selected address text; the reply keeps
the query's transaction id, is authoritative, and the returned result is
RcodeSuccess with no error, for every table and every parse outcome. -/
theorem serveDNS_address_reply_fields (parseIP : String → Option IP)
    (table : TableFile) (n : Nightlightdns) (ctx : Ctx) (w : Writer) (r : Msg)
    (h : r.qtype = TypeA ∨ r.qtype = TypeAAAA) :
    Nightlightdns.ServeDNS parseIP table n ctx w r
      = { trace := [.incCounter (metricsWithServer ctx),
                    .writeMsg w
                      { id := r.id, rcode := RcodeSuccess, authoritative := true,
                        answer := [{ Hdr := { Name := r.qname, Rrtype := TypeA,
                                              Class := ClassINET, Ttl := 30 },
                                     A := parseIP (matchLoop r.qname
                                            (loadRecords table).Records) }] }],
          rcode := RcodeSuccess, err := none } :=
  serveDNS_addr parseIP table n ctx w r h

/-- Witness for C3: the round trip of the spec, table entry host/10.0.0.5
and query host.example.com. of type A. -/
theorem serveDNS_address_reply_fields_witness :
    ((1 : Nat) = TypeA ∨ (1 : Nat) = TypeAAAA) ∧
    Nightlightdns.ServeDNS
        (fun s => if s = "10.0.0.5" then some [10, 0, 0, 5] else none)
        (.parsed ⟨[⟨"host", "10.0.0.5"⟩]⟩) ⟨none⟩ "srv" 0
        ⟨"host.example.com.", 1, 9⟩
      = { trace := [.incCounter "srv",
                    .writeMsg 0
                      { id := 9, rcode := RcodeSuccess, authoritative := true,
                        answer := [{ Hdr := { Name := "host.example.com.", Rrtype := TypeA,
                                              Class := ClassINET, Ttl := 30 },
                                     A := some [10, 0, 0, 5] }] }],
          rcode := RcodeSuccess, err := none } :=
  ⟨Or.inl rfl,
   (serveDNS_address_reply_fields
      (fun s => if s = "10.0.0.5" then some [10, 0, 0, 5] else none)
      (.parsed ⟨[⟨"host", "10.0.0.5"⟩]⟩) ⟨none⟩ "srv" 0
      ⟨"host.example.com.", 1, 9⟩ (Or.inl rfl)).trans rfl⟩

/-- C4: on every v4 or v6 address query exactly one reply is written, it
contains exactly one answer record, and that answer's record type is
TypeA, also when the query asked for AAAA. -/
theorem serveDNS_single_typeA_answer (parseIP : String → Option IP)
    (table : TableFile) (n : Nightlightdns) (ctx : Ctx) (w : Writer) (r : Msg)
    (h : r.qtype = TypeA ∨ r.qtype = TypeAAAA) :
    (writtenReplies (Nightlightdns.ServeDNS parseIP table n ctx w r)).map
        (fun m => (m.answer.length, m.answer.map (fun a => a.Hdr.Rrtype)))
      = [(1, [TypeA])] := by
  rw [serveDNS_addr parseIP table n ctx w r h]
  rfl

/-- Witness for C4 at a concrete AAAA (type 28) query: the single answer
still has record type TypeA. -/
theorem serveDNS_single_typeA_answer_witness :
    ((28 : Nat) = TypeA ∨ (28 : Nat) = TypeAAAA) ∧
    (writtenReplies (Nightlightdns.ServeDNS (fun _ => none) .readError
        ⟨none⟩ "srv" 0 ⟨"a.b.", 28, 2⟩)).map
        (fun m => (m.answer.length, m.answer.map (fun a => a.Hdr.Rrtype)))
      = [(1, [TypeA])] :=
  ⟨Or.inr rfl,
   serveDNS_single_typeA_answer (fun _ => none) .readError ⟨none⟩ "srv" 0
     ⟨"a.b.", 28, 2⟩ (Or.inr rfl)⟩

end Nightlight

namespace Nightlight

/-- C5: when reading the table file fails or its content fails to parse,
the loader yields the empty RecordSet, and every address-type query still
terminates in a RcodeSuccess reply with no error and with an unset (none)
address field, since net.ParseIP of the empty string is nil. -/
theorem serveDNS_table_failure_success_empty (parseIP : String → Option IP)
    (table : TableFile) (n : Nightlightdns) (ctx : Ctx) (w : Writer) (r : Msg)
    (htable : table = .readError ∨ table = .parseError)
    (hp : parseIP "" = none)
    (h : r.qtype = TypeA ∨ r.qtype = TypeAAAA) :
    loadRecords table = { Records := [] } ∧
    Nightlightdns.ServeDNS parseIP table n ctx w r
      = { trace := [.incCounter (metricsWithServer ctx),
                    .writeMsg w
                      { id := r.id, rcode := RcodeSuccess, authoritative := true,
                        answer := [{ Hdr := { Name := r.qname, Rrtype := TypeA,
                                              Class := ClassINET, Ttl := 30 },
                                     A := none }] }],
          rcode := RcodeSuccess, err := none } := by
  have hl : loadRecords table = { Records := [] } := by
    rcases htable with h' | h' <;> rw [h'] <;> rfl
  refine ⟨hl, ?_⟩
  rw [serveDNS_addr parseIP table n ctx w r h, hl]
  simp [matchLoop, hp]

/-- Witness for C5 at a concrete unreadable table file. -/
theorem serveDNS_table_failure_success_empty_witness :
    ((TableFile.readError = TableFile.readError ∨
        TableFile.readError = TableFile.parseError) ∧
      (fun (_ : String) => (none : Option IP)) "" = none ∧
      ((1 : Nat) = TypeA ∨ (1 : Nat) = TypeAAAA)) ∧
    loadRecords .readError = { Records := [] } ∧
    Nightlightdns.ServeDNS (fun _ => none) .readError ⟨none⟩ "srv" 0
        ⟨"host.example.com.", 1, 5⟩
      = { trace := [.incCounter "srv",
                    .writeMsg 0
                      { id := 5, rcode := RcodeSuccess, authoritative := true,
                        answer := [{ Hdr := { Name := "host.example.com.", Rrtype := TypeA,
                                              Class := ClassINET, Ttl := 30 },
                                     A := none }] }],
          rcode := RcodeSuccess, err := none } :=
  ⟨⟨Or.inl rfl, rfl, Or.inl rfl⟩,
   serveDNS_table_failure_success_empty (fun _ => none) .readError ⟨none⟩
     "srv" 0 ⟨"host.example.com.", 1, 5⟩ (Or.inl rfl) rfl (Or.inl rfl)⟩

/-- C6: every run of ServeDNS writes at most one local reply, and a run
never both writes a local reply and calls the next handler. -/
theorem serveDNS_write_delegate_exclusive (parseIP : String → Option IP)
    (table : TableFile) (n : Nightlightdns) (ctx : Ctx) (w : Writer) (r : Msg) :
    ((Nightlightdns.ServeDNS parseIP table n ctx w r).trace.countP
        Event.isWrite ≤ 1) ∧
    (((Nightlightdns.ServeDNS parseIP table n ctx w r).trace.countP
        Event.isWrite = 0) ∨
     ((Nightlightdns.ServeDNS parseIP table n ctx w r).trace.countP
        Event.isCallNext = 0)) := by
  rcases serveDNS_trace_shape parseIP table n ctx w r with ⟨m, hm⟩ | hm | hm <;>
    rw [hm]
  · exact ⟨by simp [List.countP_cons, Event.isWrite],
      Or.inr (by simp [List.countP_cons, Event.isCallNext, Event.isWrite])⟩
  · exact ⟨by simp [List.countP_cons, Event.isWrite],
      Or.inl (by simp [List.countP_cons, Event.isWrite])⟩
  · exact ⟨by simp, Or.inl (by simp)⟩

/-- C7: on every non-address query the run is exactly the delegate return
that precedes the dnserror statement, and no reply is ever written, so the
hard-failure dnserror statement sequenced after the unconditional delegate
return never executes. -/
theorem dnserror_branch_unreachable (parseIP : String → Option IP)
    (table : TableFile) (n : Nightlightdns) (ctx : Ctx) (w : Writer) (r : Msg)
    (h1 : r.qtype ≠ TypeA) (h2 : r.qtype ≠ TypeAAAA) :
    Nightlightdns.ServeDNS parseIP table n ctx w r
      = NextOrFailure Nightlightdns.name n.Next ctx w r ∧
    writtenReplies (Nightlightdns.ServeDNS parseIP table n ctx w r) = [] := by
  refine ⟨serveDNS_nonaddr parseIP table n ctx w r h1 h2, ?_⟩
  rw [serveDNS_nonaddr parseIP table n ctx w r h1 h2]
  cases hn : n.Next <;> simp [NextOrFailure, writtenReplies]

/-- Witness for C7 at a concrete TXT (type 16) query. -/
theorem dnserror_branch_unreachable_witness :
    ((16 : Nat) ≠ TypeA ∧ (16 : Nat) ≠ TypeAAAA) ∧
    (Nightlightdns.ServeDNS (fun _ => none) .readError
        ⟨some (fun _ _ _ => (0, none))⟩ "srv" 0 ⟨"x.", 16, 1⟩
      = NextOrFailure Nightlightdns.name (some (fun _ _ _ => (0, none)))
          "srv" 0 ⟨"x.", 16, 1⟩ ∧
    writtenReplies (Nightlightdns.ServeDNS (fun _ => none) .readError
        ⟨some (fun _ _ _ => (0, none))⟩ "srv" 0 ⟨"x.", 16, 1⟩) = []) :=
  ⟨⟨by decide, by decide⟩,
   dnserror_branch_unreachable (fun _ => none) .readError
     ⟨some (fun _ _ _ => (0, none))⟩ "srv" 0 ⟨"x.", 16, 1⟩
     (by decide) (by decide)⟩

end Nightlight

namespace Nightlight

/-- Counterexample to C8 as stated: at a concrete address-type query the
run performs exactly one reply write, yet the prefix of the trace strictly
before any write already contains the counter increment, so the counter is
not incremented after the local reply is written (it is incremented
before, source line 95 versus line 104). -/
theorem requestCount_order_counterexample :
    (Nightlightdns.ServeDNS (fun _ => none) .readError ⟨none⟩ "srv" 0
        ⟨"host.example.com.", 1, 5⟩).trace.countP Event.isWrite = 1 ∧
    ((Nightlightdns.ServeDNS (fun _ => none) .readError ⟨none⟩ "srv" 0
        ⟨"host.example.com.", 1, 5⟩).trace.takeWhile
        (fun e => !e.isWrite)).countP Event.isInc = 1 := by
  exact ⟨rfl, rfl⟩

/-- C8 amended: the per-server counter is incremented exactly once when
the query is of an address type, the increment occurring before (not
after) the local reply is written, and the counter is left unchanged when
the query is delegated to the next handler. -/
theorem requestCount_inc_once (parseIP : String → Option IP)
    (table : TableFile) (n : Nightlightdns) (ctx : Ctx) (w : Writer) (r : Msg) :
    ((r.qtype = TypeA ∨ r.qtype = TypeAAAA) →
      ((Nightlightdns.ServeDNS parseIP table n ctx w r).trace.countP
          Event.isInc = 1 ∧
       ((Nightlightdns.ServeDNS parseIP table n ctx w r).trace.takeWhile
          (fun e => !e.isWrite)).countP Event.isInc = 1)) ∧
    ((r.qtype ≠ TypeA ∧ r.qtype ≠ TypeAAAA) →
      (Nightlightdns.ServeDNS parseIP table n ctx w r).trace.countP
          Event.isInc = 0) := by
  constructor
  · intro h
    rw [serveDNS_addr parseIP table n ctx w r h]
    constructor <;>
      simp [List.countP_cons, List.takeWhile, Event.isInc, Event.isWrite]
  · intro h
    rw [serveDNS_nonaddr parseIP table n ctx w r h.1 h.2]
    cases hn : n.Next <;>
      simp [NextOrFailure, List.countP_cons, Event.isInc]

/-- Witness for the amended C8, exercising both conjuncts at concrete
address-type and TXT queries. -/
theorem requestCount_inc_once_witness :
    (((1 : Nat) = TypeA ∨ (1 : Nat) = TypeAAAA) ∧
     ((Nightlightdns.ServeDNS (fun _ => none) .readError ⟨none⟩ "srv" 0
          ⟨"host.", 1, 2⟩).trace.countP Event.isInc = 1 ∧
      ((Nightlightdns.ServeDNS (fun _ => none) .readError ⟨none⟩ "srv" 0
          ⟨"host.", 1, 2⟩).trace.takeWhile
          (fun e => !e.isWrite)).countP Event.isInc = 1)) ∧
    (((16 : Nat) ≠ TypeA ∧ (16 : Nat) ≠ TypeAAAA) ∧
     (Nightlightdns.ServeDNS (fun _ => none) .readError ⟨none⟩ "srv" 0
          ⟨"host.", 16, 2⟩).trace.countP Event.isInc = 0) :=
  ⟨⟨Or.inl rfl,
    (requestCount_inc_once (fun _ => none) .readError ⟨none⟩ "srv" 0
       ⟨"host.", 1, 2⟩).1 (Or.inl rfl)⟩,
   ⟨⟨by decide, by decide⟩,
    (requestCount_inc_once (fun _ => none) .readError ⟨none⟩ "srv" 0
       ⟨"host.", 16, 2⟩).2 ⟨by decide, by decide⟩⟩⟩

/-- C9: the directive accepts zero arguments: with no token after the
plugin name setup registers the handler and returns no error, and with any
following token it returns the wrapped configuration error. -/
theorem setup_zero_args (args : List String) :
    (args = [] → setup args = .registered) ∧
    (args ≠ [] →
      setup args = .error (pluginError Nightlightdns.name ArgErr)) := by
  cases args with
  | nil => exact ⟨fun _ => rfl, fun hne => absurd rfl hne⟩
  | cons a as => exact ⟨fun he => absurd he (by simp), fun _ => rfl⟩

/-- Witness for C9 at the empty and a one-token argument list. -/
theorem setup_zero_args_witness :
    setup [] = .registered ∧
    setup ["extra"] = .error (pluginError Nightlightdns.name ArgErr) :=
  ⟨(setup_zero_args []).1 rfl, (setup_zero_args ["extra"]).2 (by decide)⟩

/-- C10: splitting any query name on dots always yields at least one
segment, and the matcher's key baseName is exactly that first segment, so
indexing segment zero in the matcher loop is total for every query name,
including the empty string and names without any dot. -/
theorem baseName_first_segment_total (qname : String) :
    goSplitDot qname.toList ≠ [] ∧
    (goSplitDot qname.toList).head? = some (baseName qname).toList := by
  refine ⟨goSplitDot_ne_nil qname.toList, ?_⟩
  cases hg : goSplitDot qname.toList with
  | nil => exact absurd hg (goSplitDot_ne_nil qname.toList)
  | cons s ss =>
    have hg' : goSplitDot qname.data = s :: ss := hg
    simp [baseName, String.toList, hg, hg']

end Nightlight
